import Mathlib

/-
Verification of the run-tracking core of the track-running application
(GeoMath in src/lib/geolib.ts, LocationService and its updateRunStats
aggregator, the activeRun screen's pause/resume timer, and the
OfflineQueue in the offline-queue module).

Embedding conventions:
* JavaScript float64 numbers are modelled as real numbers; timestamps
  (milliseconds from Date.now()) are reals, durations after Math.floor are
  integers, Math.round is the round function (round x = floor (x + 1/2),
  matching JS Math.round's round-half-up behaviour).
* Nullable fields (number | null) are Option values.  JavaScript truthiness
  tests on numbers (if (x), x && y, x || y) are modelled exactly: none and
  some 0 are falsy, every other number is truthy.
* Every call site of updateRunStats constructs its sample with
  timestamp: Date.now() immediately before the call, so the wall clock at
  the moment of an update is the sample's own timestamp; the embedding
  uses l.timestamp wherever the source reads Date.now() inside
  updateRunStats.
* The backend (supabase) calls made by OfflineQueue.executeAction are an
  external collaborator; executeAction's success or failure is abstracted
  as an oracle exec : QueuedAction → Bool.  Everything else in
  processQueue is translated from the source.
-/

open Classical

/-! ### GeoMath (src/lib/geolib.ts) -/

/-- Coordinate as in geolib.ts: latitude and longitude in degrees. -/
structure Coordinate where
  latitude : ℝ
  longitude : ℝ

/-- toRadians from geolib.ts: degrees * (Math.PI / 180). -/
noncomputable def toRadians (degrees : ℝ) : ℝ := degrees * (Real.pi / 180)

/-- JavaScript Math.atan2(y, x), defined piecewise on the sign of x and y. -/
noncomputable def atan2 (y x : ℝ) : ℝ :=
  if 0 < x then Real.arctan (y / x)
  else if x < 0 then
    (if 0 ≤ y then Real.arctan (y / x) + Real.pi else Real.arctan (y / x) - Real.pi)
  else if 0 < y then Real.pi / 2
  else if y < 0 then -(Real.pi / 2)
  else 0

/-- getDistance from geolib.ts: haversine distance in kilometres with
Earth radius R = 6371 km.  (The source's second parameter is named "end",
a Lean keyword, so it is called "finish" here.) -/
noncomputable def getDistance (start finish : Coordinate) : ℝ :=
  let dLat := toRadians (finish.latitude - start.latitude)
  let dLon := toRadians (finish.longitude - start.longitude)
  let a := Real.sin (dLat / 2) * Real.sin (dLat / 2) +
    Real.cos (toRadians start.latitude) * Real.cos (toRadians finish.latitude) *
    Real.sin (dLon / 2) * Real.sin (dLon / 2)
  let c := 2 * atan2 (Real.sqrt a) (Real.sqrt (1 - a))
  6371 * c

/-! ### Basic facts about the haversine distance -/

theorem atan2_zero_one : atan2 0 1 = 0 := by
  unfold atan2
  rw [if_pos one_pos]
  simp [Real.arctan_zero]

theorem getDistance_self (a : Coordinate) : getDistance a a = 0 := by
  unfold getDistance toRadians
  simp [atan2_zero_one]

theorem hav_aux (p q u v : ℝ) :
    Real.sin ((q - p) * (Real.pi / 180) / 2) * Real.sin ((q - p) * (Real.pi / 180) / 2) +
      Real.cos (p * (Real.pi / 180)) * Real.cos (q * (Real.pi / 180)) *
        Real.sin ((v - u) * (Real.pi / 180) / 2) * Real.sin ((v - u) * (Real.pi / 180) / 2) =
    Real.sin ((p - q) * (Real.pi / 180) / 2) * Real.sin ((p - q) * (Real.pi / 180) / 2) +
      Real.cos (q * (Real.pi / 180)) * Real.cos (p * (Real.pi / 180)) *
        Real.sin ((u - v) * (Real.pi / 180) / 2) * Real.sin ((u - v) * (Real.pi / 180) / 2) := by
  have h1 : Real.sin ((p - q) * (Real.pi / 180) / 2) =
      -Real.sin ((q - p) * (Real.pi / 180) / 2) := by
    rw [show (p - q) * (Real.pi / 180) / 2 = -((q - p) * (Real.pi / 180) / 2) by ring,
      Real.sin_neg]
  have h2 : Real.sin ((u - v) * (Real.pi / 180) / 2) =
      -Real.sin ((v - u) * (Real.pi / 180) / 2) := by
    rw [show (u - v) * (Real.pi / 180) / 2 = -((v - u) * (Real.pi / 180) / 2) by ring,
      Real.sin_neg]
  rw [h1, h2]
  ring

theorem getDistance_comm (a b : Coordinate) : getDistance a b = getDistance b a := by
  simp only [getDistance, toRadians]
  rw [hav_aux a.latitude b.latitude a.longitude b.longitude]

/-! ### LocationService (locationService module) -/

/-- LocationData as in the location service: a GPS sample.  speed,
accuracy and altitude are nullable (number | null); timestamp is the
Date.now() value at capture, in milliseconds. -/
structure LocationData where
  latitude : ℝ
  longitude : ℝ
  speed : Option ℝ
  accuracy : Option ℝ
  altitude : Option ℝ
  timestamp : ℝ

/-- The latitude/longitude projection that getDistance reads off a
LocationData argument (TypeScript structural typing lets the service pass
LocationData where geolib expects Coordinate). -/
def LocationData.toCoord (l : LocationData) : Coordinate :=
  { latitude := l.latitude, longitude := l.longitude }

/-- RunStats as in the location service.  duration holds the result of
Math.floor (an integer); pace is the formatted M:SS string; calories the
result of Math.round. -/
structure RunStats where
  distance : ℝ
  speed : ℝ
  maxSpeed : ℝ
  avgSpeed : ℝ
  elevationGain : ℝ
  duration : ℤ
  pace : String
  calories : ℤ

/-- The initial runStats field values of LocationService (also what
resetTrackingData restores). -/
def initialStats : RunStats :=
  { distance := 0, speed := 0, maxSpeed := 0, avgSpeed := 0,
    elevationGain := 0, duration := 0, pace := "0:00", calories := 0 }

/-- The mutable fields of a LocationService instance that the tracking
logic reads and writes.  watchActive abstracts the watchId/webWatchId
subscription handles (some watch is installed); the permission flag and
the callback closures are external and omitted. -/
structure ServiceState where
  isTracking : Bool
  watchActive : Bool
  lastLocation : Option LocationData
  startTime : Option ℝ
  runStats : RunStats
  coordinates : List LocationData
  speedHistory : List ℝ

/-- Field values of a freshly constructed LocationService. -/
def initState : ServiceState :=
  { isTracking := false, watchActive := false, lastLocation := none,
    startTime := none, runStats := initialStats, coordinates := [],
    speedHistory := [] }

/-- speedHistory trimming in updateRunStats: after a push, if the history
holds more than 50 readings it is replaced by slice(-50), its last 50
elements. -/
def trim50 (h : List ℝ) : List ℝ :=
  if 50 < h.length then h.drop (h.length - 50) else h

/-- The currentSpeed computation of updateRunStats (source lines starting
at "Calculate current speed"): prefer the device GPS speed when tracking
and 0 < speed < 10 m/s, converting to km/h with * 3.6; otherwise derive
the speed from the step distance and the elapsed time when tracking,
timeDiff > 0 and distanceIncrement > 0.001; otherwise 0. -/
noncomputable def currentSpeedOf (tracking : Bool) (l0 l : LocationData) : ℝ :=
  let d := getDistance l0.toCoord l.toCoord
  let timeDiff := (l.timestamp - l0.timestamp) / 1000
  match l.speed with
  | some v =>
      if tracking = true ∧ 0 < v ∧ v < 10 then v * 3.6
      else if tracking = true ∧ 0 < timeDiff ∧ 0.001 < d then d / timeDiff * 3600
      else 0
  | none =>
      if tracking = true ∧ 0 < timeDiff ∧ 0.001 < d then d / timeDiff * 3600
      else 0

/-- The elevation-gain step of updateRunStats.  The source guard is
"location.altitude && this.lastLocation.altitude": JavaScript truthiness,
so an altitude that is null OR exactly 0 fails the guard.  Inside, the
difference is added only while tracking and when 0 < diff < 10. -/
noncomputable def elevStep (tracking : Bool) (alt0 alt1 : Option ℝ) (gain : ℝ) : ℝ :=
  match alt1, alt0 with
  | some x1, some x0 =>
      if x1 ≠ 0 ∧ x0 ≠ 0 ∧ tracking = true ∧ 0 < x1 - x0 ∧ x1 - x0 < 10 then
        gain + (x1 - x0)
      else gain
  | _, _ => gain

/-- The body of updateRunStats's "if (this.lastLocation)" block: distance
acceptance (strictly between 0.001 and 0.05 km while tracking), the
current-speed filter (accepted iff 0 ≤ speed < 30 km/h; on acceptance the
speed is recorded, pushed into the history when above 0.5 km/h with the
history trimmed to 50, the max is raised when exceeded, and the average
is recomputed as the history mean), and the elevation step.  Returns the
updated stats (duration/pace/calories still untouched) and the updated
speed history. -/
noncomputable def innerStep (s : ServiceState) (l l0 : LocationData) :
    RunStats × List ℝ :=
  let d := getDistance l0.toCoord l.toCoord
  let distance' :=
    if s.isTracking = true ∧ 0.001 < d ∧ d < 0.05 then s.runStats.distance + d
    else s.runStats.distance
  let cs := currentSpeedOf s.isTracking l0 l
  let accept := 0 ≤ cs ∧ cs < 30
  let hist' := if accept ∧ 0.5 < cs then trim50 (s.speedHistory ++ [cs])
    else s.speedHistory
  let speed' := if accept then cs else s.runStats.speed
  let max' := if accept ∧ s.runStats.maxSpeed < cs then cs else s.runStats.maxSpeed
  let avg' := if accept ∧ hist' ≠ [] then hist'.sum / hist'.length
    else s.runStats.avgSpeed
  let elev' := elevStep s.isTracking l0.altitude l.altitude s.runStats.elevationGain
  ({ distance := distance', speed := speed', maxSpeed := max', avgSpeed := avg',
     elevationGain := elev', duration := s.runStats.duration,
     pace := s.runStats.pace, calories := s.runStats.calories }, hist')

/-- padStart(2, the zero character) on the seconds string. -/
def padTwo (str : String) : String :=
  if str.length < 2 then String.mk (List.replicate (2 - str.length) '0') ++ str
  else str

/-- The pace recomputation of updateRunStats: when avgSpeed > 0, pace is
60/avgSpeed minutes rendered as M:SS with the minutes clamped into
[0, 59] after Math.floor and the seconds clamped into [0, 59] after
Math.round of the fractional part times 60; otherwise "0:00". -/
noncomputable def pacePart (avg : ℝ) : String :=
  if 0 < avg then
    let paceMinutes := 60 / avg
    let minutes : ℤ := min 59 (max 0 ⌊paceMinutes⌋)
    let seconds : ℤ := min 59 (max 0 (round ((paceMinutes - (minutes : ℝ)) * 60)))
    toString minutes ++ ":" ++ padTwo (toString seconds)
  else "0:00"

/-- The duration recomputation of updateRunStats: guarded by the JS
truthiness test "if (this.startTime)" (null and 0 are both falsy), the
duration becomes Math.floor((now - startTime) / 1000) capped at 86400;
now is the sample's timestamp (see the header comment). -/
noncomputable def durationPart (startTime : Option ℝ) (now : ℝ) (old : ℤ) : ℤ :=
  match startTime with
  | none => old
  | some t0 =>
      if t0 = 0 then old
      else
        let d0 := ⌊(now - t0) / 1000⌋
        if 86400 < d0 then 86400 else d0

/-- The calorie recomputation of updateRunStats: when duration/3600 > 0,
calories becomes Math.round(distance * 65); otherwise it is untouched. -/
noncomputable def caloriesPart (dur : ℤ) (dist : ℝ) (old : ℤ) : ℤ :=
  if 0 < (dur : ℝ) / 3600 then round (dist * 65) else old

/-- The tail of updateRunStats after the lastLocation block: recompute
duration, pace and calories on the (possibly already updated) stats. -/
noncomputable def afterStats (s : ServiceState) (l : LocationData)
    (st : RunStats) : RunStats :=
  let dur := durationPart s.startTime l.timestamp st.duration
  { st with
    duration := dur
    pace := pacePart st.avgSpeed
    calories := caloriesPart dur st.distance st.calories }

/-- updateRunStats: push the sample onto coordinates; if a previous sample
exists run the distance/speed/elevation block; recompute duration, pace
and calories; finally set lastLocation to the sample.  Note that the
coordinate push, the duration/pace/calories recomputation and the
lastLocation update are NOT gated on isTracking. -/
noncomputable def updateRunStats (s : ServiceState) (l : LocationData) :
    ServiceState :=
  match s.lastLocation with
  | none =>
      { s with
        coordinates := s.coordinates ++ [l]
        lastLocation := some l
        runStats := afterStats s l s.runStats }
  | some l0 =>
      let p := innerStep s l l0
      { s with
        coordinates := s.coordinates ++ [l]
        lastLocation := some l
        runStats := afterStats s l p.1
        speedHistory := p.2 }

/-- startTracking: returns immediately when already tracking; otherwise
resets the tracking data, records startTime = now, installs the watch and
sets isTracking.  The permission checks and watch construction are
external effects. -/
def startTracking (now : ℝ) (s : ServiceState) : ServiceState :=
  if s.isTracking then s
  else
    { isTracking := true, watchActive := true, lastLocation := none,
      startTime := some now, runStats := initialStats, coordinates := [],
      speedHistory := [] }

/-- pauseTracking: remove the watch and clear isTracking; everything else
(including lastLocation, per the source comment) is kept. -/
def pauseTracking (s : ServiceState) : ServiceState :=
  { s with isTracking := false, watchActive := false }

/-- resumeTracking delegates to startTrackingInternal, which installs a
new watch and sets isTracking; unlike startTracking it does NOT reset the
data and does NOT touch startTime. -/
def resumeTracking (s : ServiceState) : ServiceState :=
  { s with isTracking := true, watchActive := true }

/-- stopTracking: remove the watch and clear isTracking; the data is kept
until explicitly reset. -/
def stopTracking (s : ServiceState) : ServiceState :=
  { s with isTracking := false, watchActive := false }

/-- getCurrentStats returns a copy of the runStats snapshot. -/
def getCurrentStats (s : ServiceState) : RunStats := s.runStats

/-- The record returned by getRunData. -/
structure RunData where
  distance : ℝ
  duration : ℤ
  coordinates : List (ℝ × ℝ)
  avgSpeed : ℝ
  maxSpeed : ℝ
  elevationGain : ℝ
  pace : String
  calories : ℤ

/-- getRunData: the final run record, with the route projected to
latitude/longitude pairs. -/
def getRunData (s : ServiceState) : RunData :=
  { distance := s.runStats.distance, duration := s.runStats.duration,
    coordinates := s.coordinates.map (fun c => (c.latitude, c.longitude)),
    avgSpeed := s.runStats.avgSpeed, maxSpeed := s.runStats.maxSpeed,
    elevationGain := s.runStats.elevationGain, pace := s.runStats.pace,
    calories := s.runStats.calories }

/-! ### The activeRun screen's run timer (src/app/activeRun.tsx) -/

/-- The two refs of the ActiveRun component that drive the on-screen run
timer: startTimeRef (number | null) and pausedTimeRef (number). -/
structure TimerState where
  startTimeRef : Option ℝ
  pausedTimeRef : ℝ

/-- JavaScript "startTimeRef.current || Date.now()": the ref value unless
it is null or 0 (falsy), in which case the current time. -/
noncomputable def orNow (st : Option ℝ) (now : ℝ) : ℝ :=
  match st with
  | none => now
  | some v => if v = 0 then now else v

/-- toggleRunning, start branch: startTimeRef = now, pausedTimeRef = 0. -/
def startRun (now : ℝ) (_t : TimerState) : TimerState :=
  { startTimeRef := some now, pausedTimeRef := 0 }

/-- toggleRunning, pause branch: pausedTimeRef accumulates the elapsed
time so far, now - (startTimeRef || now). -/
noncomputable def pauseRun (now : ℝ) (t : TimerState) : TimerState :=
  { t with pausedTimeRef := t.pausedTimeRef + (now - orNow t.startTimeRef now) }

/-- toggleRunning, resume branch: startTimeRef = now - pausedTimeRef, so
the start reference is shifted forward by exactly the accumulated paused
wall-clock time. -/
def resumeRun (now : ℝ) (t : TimerState) : TimerState :=
  { t with startTimeRef := some (now - t.pausedTimeRef) }

/-- The 1 Hz duration interval while running: when startTimeRef is truthy
it writes Math.floor((Date.now() - startTimeRef) / 1000) into the
duration field of the component's stats state. -/
noncomputable def uiDuration (now : ℝ) (t : TimerState) : Option ℤ :=
  match t.startTimeRef with
  | none => none
  | some v => if v = 0 then none else some ⌊(now - v) / 1000⌋

/-! ### OfflineQueue (offline-queue module) -/

/-- The action kinds a QueuedAction can carry. -/
inductive ActionKind where
  | createGoal
  | updateGoal
  | deleteGoal
  | saveRun
  | createAchievement
deriving DecidableEq

/-- QueuedAction: id and enqueue timestamp, the action kind, an opaque
payload (modelled as a string), and the retry counter. -/
structure QueuedAction where
  id : String
  action : ActionKind
  data : String
  timestamp : ℤ
  retryCount : ℕ
deriving DecidableEq

/-- addToQueue appends the new action at the back of the queue (with
retryCount = 0 at creation; the caller builds the record here). -/
def addToQueue (q : List QueuedAction) (item : QueuedAction) : List QueuedAction :=
  q ++ [item]

/-- The items on which the processQueue loop calls executeAction during
one pass, in order: every item is attempted until the first one whose
execution fails, which is still attempted and then ends the pass (the
source breaks out of the loop on any failure).  exec is the
success/failure oracle for executeAction's backend calls. -/
def attempted (exec : QueuedAction → Bool) : List QueuedAction → List QueuedAction
  | [] => []
  | i :: rest => if exec i then i :: attempted exec rest else [i]

/-- The processedItems and failedItems id lists that one processQueue pass
accumulates: successful items go to processedItems; the first failing item
has its retryCount incremented and, when the incremented count reaches 3,
its id goes to failedItems; the loop then breaks. -/
def processPass (exec : QueuedAction → Bool) :
    List QueuedAction → List String × List String
  | [] => ([], [])
  | i :: rest =>
      if exec i then
        let p := processPass exec rest
        (i.id :: p.1, p.2)
      else if 3 ≤ i.retryCount + 1 then ([], [i.id])
      else ([], [])

/-- The in-place retryCount increment performed on the first failing item
of a pass (the loop mutates the item inside this.queue and breaks, so
items after it are untouched). -/
def bumpFirstFailing (exec : QueuedAction → Bool) :
    List QueuedAction → List QueuedAction
  | [] => []
  | i :: rest =>
      if exec i then i :: bumpFirstFailing exec rest
      else { i with retryCount := i.retryCount + 1 } :: rest

/-- One processQueue pass over the queue (assuming the isProcessing guard
passed and the device is online — offline or re-entrant calls leave the
queue untouched): run the loop, then remove every item whose id landed in
processedItems or failedItems. -/
def processQueue (exec : QueuedAction → Bool) (q : List QueuedAction) :
    List QueuedAction :=
  let p := processPass exec q
  (bumpFirstFailing exec q).filter (fun item => !((p.1 ++ p.2).contains item.id))

/-- n successive processQueue passes (the connectivity timer triggers a
pass every 5 seconds while items remain queued). -/
def iterProcess (exec : QueuedAction → Bool) : ℕ → List QueuedAction → List QueuedAction
  | 0, q => q
  | n + 1, q => iterProcess exec n (processQueue exec q)

/-- The concatenated attempt lists of n successive passes. -/
def attemptTrace (exec : QueuedAction → Bool) : ℕ → List QueuedAction → List QueuedAction
  | 0, _ => []
  | n + 1, q => attempted exec q ++ attemptTrace exec n (processQueue exec q)

/-- An executeAction oracle under which every backend write fails (the
forced-failure scenario of the queue claims). -/
def alwaysFail : QueuedAction → Bool := fun _ => false

/-! ### Concrete scenario data -/

/-- A session started at time 10000 ms on a fresh service. -/
noncomputable def freshActive (t0 : ℝ) : ServiceState := startTracking t0 initState

/-- Stationary sample without GPS speed, 1 s into the speed scenario. -/
noncomputable def spd0 : LocationData :=
  { latitude := 0, longitude := 0, speed := none, accuracy := none,
    altitude := none, timestamp := 11000 }

/-- Stationary sample reporting a GPS speed of 25/18 m/s, which converts
to exactly 5 km/h. -/
noncomputable def spd1 : LocationData :=
  { latitude := 0, longitude := 0, speed := some (25 / 18), accuracy := none,
    altitude := none, timestamp := 12000 }

/-- Stationary sample reporting a GPS speed of 9 m/s, which converts to
32.4 km/h, above the 30 km/h rejection threshold. -/
noncomputable def spd2 : LocationData :=
  { latitude := 0, longitude := 0, speed := some 9, accuracy := none,
    altitude := none, timestamp := 13000 }

/-- Stationary sample without GPS speed at t = 13000 (delivered to a
paused session in the ingest-gating scenario). -/
noncomputable def spd3 : LocationData :=
  { latitude := 0, longitude := 0, speed := none, accuracy := none,
    altitude := none, timestamp := 13000 }

/-- The state after a fresh start at 10000 and the samples spd0, spd1:
tracking, currentSpeedKmh = 5, maxSpeed = 5, speed history [5]. -/
noncomputable def midRun : ServiceState :=
  updateRunStats (updateRunStats (freshActive 10000) spd0) spd1

/-- Samples for the pause/resume duration scenario: one while active, one
20 s after the resume. -/
noncomputable def dur0 : LocationData :=
  { latitude := 0, longitude := 0, speed := none, accuracy := none,
    altitude := none, timestamp := 20000 }

/-- Final sample of the pause/resume duration scenario, at t = 70000. -/
noncomputable def dur1 : LocationData :=
  { latitude := 0, longitude := 0, speed := none, accuracy := none,
    altitude := none, timestamp := 70000 }

/-- The service across the scenario: start at 10000, a sample while
active, pause at 40000 (after 30 s), resume at 50000 (10 s pause), final
sample at 70000 (20 s more).  pauseTracking and resumeTracking take no
time argument because the service never reads the clock there. -/
noncomputable def c1Service : ServiceState :=
  updateRunStats (resumeTracking (pauseTracking (updateRunStats (freshActive 10000) dur0))) dur1

/-- The activeRun timer refs across the same scenario. -/
noncomputable def c1Timer : TimerState :=
  resumeRun 50000 (pauseRun 40000 (startRun 10000 { startTimeRef := none, pausedTimeRef := 0 }))

/-- First sample of the two-sample spec scenario: origin, altitude 0, at
relative time 0 (start time 1000000 ms). -/
noncomputable def sc0 : LocationData :=
  { latitude := 0, longitude := 0, speed := none, accuracy := none,
    altitude := some 0, timestamp := 1000000 }

/-- Second sample of the two-sample spec scenario: +0.0001 degrees on
both axes, altitude 5, one second later. -/
noncomputable def sc1 : LocationData :=
  { latitude := 0.0001, longitude := 0.0001, speed := none, accuracy := none,
    altitude := some 5, timestamp := 1001000 }

/-- The state after feeding the two scenario samples to a fresh,
actively-tracking service started at 1000000 ms. -/
noncomputable def c5Final : ServiceState :=
  updateRunStats (updateRunStats (freshActive 1000000) sc0) sc1

/-- The longitude offset whose haversine distance from the origin along
the equator is exactly 0.001 km (1 metre): 180 / (6371000 * pi) degrees. -/
noncomputable def lonOneMeter : ℝ := 180 / (6371000 * Real.pi)

/-- Origin sample for the distance-window boundary scenario. -/
noncomputable def bd0 : LocationData :=
  { latitude := 0, longitude := 0, speed := none, accuracy := none,
    altitude := none, timestamp := 10000 }

/-- Sample exactly 1 metre east of bd0 along the equator. -/
noncomputable def bd1 : LocationData :=
  { latitude := 0, longitude := lonOneMeter, speed := none, accuracy := none,
    altitude := none, timestamp := 11000 }

/-- An active session that has seen exactly the sample bd0. -/
noncomputable def c7Base : ServiceState := updateRunStats (freshActive 10000) bd0

/-- Queue items for the retry scenarios (ids a, b, c; retryCount 0). -/
def qaA : QueuedAction :=
  { id := "a", action := ActionKind.saveRun, data := "", timestamp := 0, retryCount := 0 }

/-- Second always-failing queue item. -/
def qaB : QueuedAction :=
  { id := "b", action := ActionKind.createGoal, data := "", timestamp := 1, retryCount := 0 }

/-- Third always-failing queue item. -/
def qaC : QueuedAction :=
  { id := "c", action := ActionKind.createAchievement, data := "", timestamp := 2, retryCount := 0 }

/-- An item that executes successfully under execOkFirst. -/
def qOk : QueuedAction :=
  { id := "ok1", action := ActionKind.updateGoal, data := "", timestamp := 0, retryCount := 0 }

/-- An item that fails under execOkFirst. -/
def qBad : QueuedAction :=
  { id := "bad", action := ActionKind.deleteGoal, data := "", timestamp := 1, retryCount := 0 }

/-- An item queued behind qBad. -/
def qNext : QueuedAction :=
  { id := "nxt", action := ActionKind.saveRun, data := "", timestamp := 2, retryCount := 0 }

/-- An item whose retryCount is already 2, so its next failure drops it. -/
def qDrop : QueuedAction :=
  { id := "drp", action := ActionKind.saveRun, data := "", timestamp := 0, retryCount := 2 }

/-- An executeAction oracle that succeeds exactly on the item with id
"ok1". -/
def execOkFirst : QueuedAction → Bool := fun it => it.id == "ok1"

/-! ### Projection lemmas for updateRunStats -/

theorem afterStats_distance (s : ServiceState) (l : LocationData) (st : RunStats) :
    (afterStats s l st).distance = st.distance := rfl

theorem afterStats_speed (s : ServiceState) (l : LocationData) (st : RunStats) :
    (afterStats s l st).speed = st.speed := rfl

theorem afterStats_maxSpeed (s : ServiceState) (l : LocationData) (st : RunStats) :
    (afterStats s l st).maxSpeed = st.maxSpeed := rfl

theorem afterStats_avgSpeed (s : ServiceState) (l : LocationData) (st : RunStats) :
    (afterStats s l st).avgSpeed = st.avgSpeed := rfl

theorem afterStats_elevationGain (s : ServiceState) (l : LocationData) (st : RunStats) :
    (afterStats s l st).elevationGain = st.elevationGain := rfl

theorem afterStats_duration (s : ServiceState) (l : LocationData) (st : RunStats) :
    (afterStats s l st).duration = durationPart s.startTime l.timestamp st.duration := rfl

theorem innerStep_fst_distance (s : ServiceState) (l l0 : LocationData) :
    (innerStep s l l0).1.distance =
      if s.isTracking = true ∧ 0.001 < getDistance l0.toCoord l.toCoord ∧
          getDistance l0.toCoord l.toCoord < 0.05 then
        s.runStats.distance + getDistance l0.toCoord l.toCoord
      else s.runStats.distance := rfl

theorem innerStep_fst_speed (s : ServiceState) (l l0 : LocationData) :
    (innerStep s l l0).1.speed =
      if 0 ≤ currentSpeedOf s.isTracking l0 l ∧ currentSpeedOf s.isTracking l0 l < 30 then
        currentSpeedOf s.isTracking l0 l
      else s.runStats.speed := rfl

theorem innerStep_fst_maxSpeed (s : ServiceState) (l l0 : LocationData) :
    (innerStep s l l0).1.maxSpeed =
      if (0 ≤ currentSpeedOf s.isTracking l0 l ∧ currentSpeedOf s.isTracking l0 l < 30) ∧
          s.runStats.maxSpeed < currentSpeedOf s.isTracking l0 l then
        currentSpeedOf s.isTracking l0 l
      else s.runStats.maxSpeed := rfl

theorem innerStep_fst_elevationGain (s : ServiceState) (l l0 : LocationData) :
    (innerStep s l l0).1.elevationGain =
      elevStep s.isTracking l0.altitude l.altitude s.runStats.elevationGain := rfl

theorem innerStep_fst_duration (s : ServiceState) (l l0 : LocationData) :
    (innerStep s l l0).1.duration = s.runStats.duration := rfl

theorem innerStep_snd (s : ServiceState) (l l0 : LocationData) :
    (innerStep s l l0).2 =
      if (0 ≤ currentSpeedOf s.isTracking l0 l ∧ currentSpeedOf s.isTracking l0 l < 30) ∧
          0.5 < currentSpeedOf s.isTracking l0 l then
        trim50 (s.speedHistory ++ [currentSpeedOf s.isTracking l0 l])
      else s.speedHistory := rfl

theorem updateRunStats_isTracking (s : ServiceState) (l : LocationData) :
    (updateRunStats s l).isTracking = s.isTracking := by
  cases h : s.lastLocation <;> simp [updateRunStats, h]

theorem updateRunStats_startTime (s : ServiceState) (l : LocationData) :
    (updateRunStats s l).startTime = s.startTime := by
  cases h : s.lastLocation <;> simp [updateRunStats, h]

theorem updateRunStats_lastLocation (s : ServiceState) (l : LocationData) :
    (updateRunStats s l).lastLocation = some l := by
  cases h : s.lastLocation <;> simp [updateRunStats, h]

theorem updateRunStats_coordinates (s : ServiceState) (l : LocationData) :
    (updateRunStats s l).coordinates = s.coordinates ++ [l] := by
  cases h : s.lastLocation <;> simp [updateRunStats, h]

theorem updateRunStats_runStats_none (s : ServiceState) (l : LocationData)
    (h : s.lastLocation = none) :
    (updateRunStats s l).runStats = afterStats s l s.runStats := by
  simp [updateRunStats, h]

theorem updateRunStats_runStats_some (s : ServiceState) (l l0 : LocationData)
    (h : s.lastLocation = some l0) :
    (updateRunStats s l).runStats = afterStats s l (innerStep s l l0).1 := by
  simp [updateRunStats, h]

theorem updateRunStats_speedHistory_none (s : ServiceState) (l : LocationData)
    (h : s.lastLocation = none) :
    (updateRunStats s l).speedHistory = s.speedHistory := by
  simp [updateRunStats, h]

theorem updateRunStats_speedHistory_some (s : ServiceState) (l l0 : LocationData)
    (h : s.lastLocation = some l0) :
    (updateRunStats s l).speedHistory = (innerStep s l l0).2 := by
  simp [updateRunStats, h]

theorem updateRunStats_duration (s : ServiceState) (l : LocationData) (t0 : ℝ)
    (h : s.startTime = some t0) (h0 : ¬ t0 = 0) :
    (updateRunStats s l).runStats.duration =
      if 86400 < ⌊(l.timestamp - t0) / 1000⌋ then 86400
      else ⌊(l.timestamp - t0) / 1000⌋ := by
  cases hl : s.lastLocation <;>
    simp [updateRunStats, hl, afterStats, durationPart, h, h0]

theorem currentSpeedOf_not_tracking (l0 l : LocationData) :
    currentSpeedOf false l0 l = 0 := by
  cases h : l.speed <;> simp [currentSpeedOf, h]

theorem currentSpeedOf_gps (l0 l : LocationData) (v : ℝ) (h : l.speed = some v)
    (h1 : 0 < v) (h2 : v < 10) : currentSpeedOf true l0 l = v * 3.6 := by
  simp [currentSpeedOf, h, h1, h2]

theorem freshActive_eq (t0 : ℝ) :
    freshActive t0 =
      { isTracking := true, watchActive := true, lastLocation := none,
        startTime := some t0, runStats := initialStats, coordinates := [],
        speedHistory := [] } := by
  simp [freshActive, startTracking, initState]

theorem floor_cast_val (r : ℝ) (n : ℤ) (h : r = (n : ℝ)) : ⌊r⌋ = n := by
  rw [h, Int.floor_intCast]

theorem elevStep_not_tracking (alt0 alt1 : Option ℝ) (g : ℝ) :
    elevStep false alt0 alt1 g = g := by
  cases alt0 <;> cases alt1 <;> simp [elevStep]

theorem maxSpeed_step_mono (s : ServiceState) (l : LocationData) :
    s.runStats.maxSpeed ≤ (updateRunStats s l).runStats.maxSpeed := by
  cases h : s.lastLocation with
  | none => rw [updateRunStats_runStats_none s l h, afterStats_maxSpeed]
  | some l0 =>
      rw [updateRunStats_runStats_some s l l0 h, afterStats_maxSpeed,
        innerStep_fst_maxSpeed]
      split_ifs with hc
      · exact le_of_lt hc.2
      · exact le_refl _

theorem speed_le_max_step (s : ServiceState) (l : LocationData)
    (h : s.runStats.speed ≤ s.runStats.maxSpeed) :
    (updateRunStats s l).runStats.speed ≤ (updateRunStats s l).runStats.maxSpeed := by
  cases hl : s.lastLocation with
  | none =>
      rw [updateRunStats_runStats_none s l hl, afterStats_speed, afterStats_maxSpeed]
      exact h
  | some l0 =>
      rw [updateRunStats_runStats_some s l l0 hl, afterStats_speed, afterStats_maxSpeed,
        innerStep_fst_speed, innerStep_fst_maxSpeed]
      split_ifs with h1 h2 h3
      · exact le_refl _
      · exact le_of_not_lt (fun hm => h2 ⟨h1, hm⟩)
      · exact absurd h3.1 h1
      · exact h

theorem speed_le_max_fold (samples : List LocationData) (s : ServiceState)
    (h : s.runStats.speed ≤ s.runStats.maxSpeed) :
    (samples.foldl updateRunStats s).runStats.speed ≤
      (samples.foldl updateRunStats s).runStats.maxSpeed := by
  induction samples generalizing s with
  | nil => exact h
  | cons l rest ih => exact ih (updateRunStats s l) (speed_le_max_step s l h)

/-- C8: for every sample sequence fed to a freshly started service the
snapshot satisfies maxSpeedKmh ≥ currentSpeedKmh (this holds from the
start, hence in particular after the first accepted sample), and
maxSpeedKmh never decreases across a single update. -/
theorem c8_max_speed_invariant :
    (∀ (t0 : ℝ) (samples : List LocationData),
      (samples.foldl updateRunStats (startTracking t0 initState)).runStats.speed ≤
        (samples.foldl updateRunStats (startTracking t0 initState)).runStats.maxSpeed) ∧
    (∀ (s : ServiceState) (l : LocationData),
      s.runStats.maxSpeed ≤ (updateRunStats s l).runStats.maxSpeed) := by
  constructor
  · intro t0 samples
    apply speed_le_max_fold
    rw [show startTracking t0 initState = freshActive t0 from rfl, freshActive_eq]
    exact le_refl 0
  · exact maxSpeed_step_mono

/-- C10: pauseTracking and stopTracking leave every accumulated statistic,
the recorded route, the speed history, the last-sample pointer and the
start time unchanged — they only clear the watch and the tracking flag —
and the run record read via getRunData after stopTracking equals exactly
the statistics as of the last update. -/
theorem c10_pause_stop_frame (s : ServiceState) :
    (pauseTracking s).runStats = s.runStats ∧
    (pauseTracking s).coordinates = s.coordinates ∧
    (pauseTracking s).speedHistory = s.speedHistory ∧
    (pauseTracking s).lastLocation = s.lastLocation ∧
    (pauseTracking s).startTime = s.startTime ∧
    (pauseTracking s).isTracking = false ∧
    (pauseTracking s).watchActive = false ∧
    (stopTracking s).runStats = s.runStats ∧
    (stopTracking s).coordinates = s.coordinates ∧
    (stopTracking s).speedHistory = s.speedHistory ∧
    (stopTracking s).lastLocation = s.lastLocation ∧
    (stopTracking s).startTime = s.startTime ∧
    (stopTracking s).isTracking = false ∧
    (stopTracking s).watchActive = false ∧
    getRunData (stopTracking s) = getRunData s ∧
    (getRunData (stopTracking s)).distance = s.runStats.distance ∧
    (getRunData (stopTracking s)).duration = s.runStats.duration ∧
    (getRunData (stopTracking s)).avgSpeed = s.runStats.avgSpeed ∧
    (getRunData (stopTracking s)).maxSpeed = s.runStats.maxSpeed ∧
    (getRunData (stopTracking s)).elevationGain = s.runStats.elevationGain ∧
    (getRunData (stopTracking s)).pace = s.runStats.pace ∧
    (getRunData (stopTracking s)).calories = s.runStats.calories :=
  ⟨rfl, rfl, rfl, rfl, rfl, rfl, rfl, rfl, rfl, rfl, rfl, rfl, rfl, rfl, rfl, rfl,
    rfl, rfl, rfl, rfl, rfl, rfl⟩

theorem innerStep_fst_avgSpeed (s : ServiceState) (l l0 : LocationData) :
    (innerStep s l l0).1.avgSpeed =
      if (0 ≤ currentSpeedOf s.isTracking l0 l ∧ currentSpeedOf s.isTracking l0 l < 30) ∧
          (innerStep s l l0).2 ≠ [] then
        ((innerStep s l l0).2).sum / ((innerStep s l l0).2).length
      else s.runStats.avgSpeed := rfl

theorem firstUp_isTracking :
    (updateRunStats (freshActive 10000) spd0).isTracking = true := by
  rw [updateRunStats_isTracking, freshActive_eq]

theorem firstUp_maxSpeed :
    (updateRunStats (freshActive 10000) spd0).runStats.maxSpeed = 0 := by
  have h : (freshActive 10000).lastLocation = none := by rw [freshActive_eq]
  rw [updateRunStats_runStats_none _ _ h, afterStats_maxSpeed, freshActive_eq]
  rfl

theorem midRun_speed : midRun.runStats.speed = 5 := by
  have hl : (updateRunStats (freshActive 10000) spd0).lastLocation = some spd0 :=
    updateRunStats_lastLocation _ _
  show (updateRunStats (updateRunStats (freshActive 10000) spd0) spd1).runStats.speed = 5
  rw [updateRunStats_runStats_some _ _ spd0 hl, afterStats_speed, innerStep_fst_speed,
    firstUp_isTracking, currentSpeedOf_gps spd0 spd1 (25 / 18) rfl (by norm_num) (by norm_num)]
  norm_num

theorem midRun_maxSpeed : midRun.runStats.maxSpeed = 5 := by
  have hl : (updateRunStats (freshActive 10000) spd0).lastLocation = some spd0 :=
    updateRunStats_lastLocation _ _
  show (updateRunStats (updateRunStats (freshActive 10000) spd0) spd1).runStats.maxSpeed = 5
  rw [updateRunStats_runStats_some _ _ spd0 hl, afterStats_maxSpeed, innerStep_fst_maxSpeed,
    firstUp_isTracking, currentSpeedOf_gps spd0 spd1 (25 / 18) rfl (by norm_num) (by norm_num),
    firstUp_maxSpeed]
  norm_num

theorem midRun_isTracking : midRun.isTracking = true := by
  show (updateRunStats (updateRunStats (freshActive 10000) spd0) spd1).isTracking = true
  rw [updateRunStats_isTracking, firstUp_isTracking]

theorem midRun_lastLocation : midRun.lastLocation = some spd1 :=
  updateRunStats_lastLocation _ _

/-- C2 (amended): in the per-sample update, a computed instantaneous speed
of 30 km/h or more is rejected: currentSpeedKmh, maxSpeedKmh, avgSpeedKmh
and the speed history are all left unchanged — in particular
currentSpeedKmh keeps its previous value rather than being set to 0. -/
theorem c2_overspeed_rejection (s : ServiceState) (l l0 : LocationData)
    (h0 : s.lastLocation = some l0)
    (h : 30 ≤ currentSpeedOf s.isTracking l0 l) :
    (updateRunStats s l).runStats.speed = s.runStats.speed ∧
    (updateRunStats s l).runStats.maxSpeed = s.runStats.maxSpeed ∧
    (updateRunStats s l).runStats.avgSpeed = s.runStats.avgSpeed ∧
    (updateRunStats s l).speedHistory = s.speedHistory := by
  have hacc : ¬(0 ≤ currentSpeedOf s.isTracking l0 l ∧
      currentSpeedOf s.isTracking l0 l < 30) :=
    fun hc => absurd hc.2 (not_lt.mpr h)
  refine ⟨?_, ?_, ?_, ?_⟩
  · rw [updateRunStats_runStats_some s l l0 h0, afterStats_speed, innerStep_fst_speed,
      if_neg hacc]
  · rw [updateRunStats_runStats_some s l l0 h0, afterStats_maxSpeed, innerStep_fst_maxSpeed,
      if_neg (fun hc => hacc hc.1)]
  · rw [updateRunStats_runStats_some s l l0 h0, afterStats_avgSpeed, innerStep_fst_avgSpeed,
      if_neg (fun hc => hacc hc.1)]
  · rw [updateRunStats_speedHistory_some s l l0 h0, innerStep_snd,
      if_neg (fun hc => hacc hc.1)]

/-- C2 witness: concrete overspeed update (GPS speed 9 m/s = 32.4 km/h on
a session whose snapshot currently reads 5 km/h). -/
theorem c2_overspeed_rejection_witness :
    midRun.lastLocation = some spd1 ∧
    30 ≤ currentSpeedOf midRun.isTracking spd1 spd2 ∧
    ((updateRunStats midRun spd2).runStats.speed = midRun.runStats.speed ∧
     (updateRunStats midRun spd2).runStats.maxSpeed = midRun.runStats.maxSpeed ∧
     (updateRunStats midRun spd2).runStats.avgSpeed = midRun.runStats.avgSpeed ∧
     (updateRunStats midRun spd2).speedHistory = midRun.speedHistory) := by
  have hcs : 30 ≤ currentSpeedOf midRun.isTracking spd1 spd2 := by
    rw [midRun_isTracking, currentSpeedOf_gps spd1 spd2 9 rfl (by norm_num) (by norm_num)]
    norm_num
  exact ⟨midRun_lastLocation, hcs,
    c2_overspeed_rejection midRun spd2 spd1 midRun_lastLocation hcs⟩

/-- C2 counterexample: after an update whose computed instantaneous speed
is 32.4 km/h (≥ 30), currentSpeedKmh is 5 — the previous value — not 0,
refuting the claim that it is set to the (zero) instantaneous speed. -/
theorem c2_overspeed_counterexample :
    30 ≤ currentSpeedOf midRun.isTracking spd1 spd2 ∧
    midRun.lastLocation = some spd1 ∧
    midRun.runStats.speed = 5 ∧
    (updateRunStats midRun spd2).runStats.speed = 5 ∧
    (updateRunStats midRun spd2).runStats.speed ≠ 0 := by
  have hcs : currentSpeedOf midRun.isTracking spd1 spd2 = 9 * 3.6 := by
    rw [midRun_isTracking, currentSpeedOf_gps spd1 spd2 9 rfl (by norm_num) (by norm_num)]
  have hup : (updateRunStats midRun spd2).runStats.speed = 5 := by
    rw [updateRunStats_runStats_some _ _ spd1 midRun_lastLocation, afterStats_speed,
      innerStep_fst_speed, hcs]
    norm_num [midRun_speed]
  refine ⟨by rw [hcs]; norm_num, midRun_lastLocation, midRun_speed, hup, ?_⟩
  rw [hup]
  norm_num

/-- C6 (amended): when the session is not actively tracking, a delivered
sample is NOT a pure no-op: it is still appended to the stored route,
lastLocation is updated, and currentSpeedKmh is set to 0 (the gated speed
computation yields 0, which passes the < 30 filter); cumulative distance,
maxSpeedKmh, the speed history and elevation gain are unchanged. -/
theorem c6_ingest_gating (s : ServiceState) (l l0 : LocationData)
    (h0 : s.lastLocation = some l0) (ht : s.isTracking = false)
    (hm : 0 ≤ s.runStats.maxSpeed) :
    (updateRunStats s l).runStats.distance = s.runStats.distance ∧
    (updateRunStats s l).runStats.maxSpeed = s.runStats.maxSpeed ∧
    (updateRunStats s l).runStats.elevationGain = s.runStats.elevationGain ∧
    (updateRunStats s l).speedHistory = s.speedHistory ∧
    (updateRunStats s l).runStats.speed = 0 ∧
    (updateRunStats s l).coordinates = s.coordinates ++ [l] ∧
    (updateRunStats s l).lastLocation = some l := by
  have hcs : currentSpeedOf s.isTracking l0 l = 0 := by
    rw [ht, currentSpeedOf_not_tracking]
  refine ⟨?_, ?_, ?_, ?_, ?_, updateRunStats_coordinates s l,
    updateRunStats_lastLocation s l⟩
  · rw [updateRunStats_runStats_some s l l0 h0, afterStats_distance,
      innerStep_fst_distance,
      if_neg (fun hc => by rw [ht] at hc; exact absurd hc.1 (by decide))]
  · rw [updateRunStats_runStats_some s l l0 h0, afterStats_maxSpeed,
      innerStep_fst_maxSpeed, hcs, if_neg (fun hc => absurd hc.2 (not_lt.mpr hm))]
  · rw [updateRunStats_runStats_some s l l0 h0, afterStats_elevationGain,
      innerStep_fst_elevationGain, ht, elevStep_not_tracking]
  · rw [updateRunStats_speedHistory_some s l l0 h0, innerStep_snd, hcs]
    norm_num
  · rw [updateRunStats_runStats_some s l l0 h0, afterStats_speed, innerStep_fst_speed,
      hcs]
    norm_num

/-- C6 witness: a paused mid-run session receiving one more sample. -/
theorem c6_ingest_gating_witness :
    (pauseTracking midRun).lastLocation = some spd1 ∧
    (pauseTracking midRun).isTracking = false ∧
    0 ≤ (pauseTracking midRun).runStats.maxSpeed ∧
    ((updateRunStats (pauseTracking midRun) spd3).runStats.distance =
        (pauseTracking midRun).runStats.distance ∧
     (updateRunStats (pauseTracking midRun) spd3).runStats.maxSpeed =
        (pauseTracking midRun).runStats.maxSpeed ∧
     (updateRunStats (pauseTracking midRun) spd3).runStats.elevationGain =
        (pauseTracking midRun).runStats.elevationGain ∧
     (updateRunStats (pauseTracking midRun) spd3).speedHistory =
        (pauseTracking midRun).speedHistory ∧
     (updateRunStats (pauseTracking midRun) spd3).runStats.speed = 0 ∧
     (updateRunStats (pauseTracking midRun) spd3).coordinates =
        (pauseTracking midRun).coordinates ++ [spd3] ∧
     (updateRunStats (pauseTracking midRun) spd3).lastLocation = some spd3) := by
  have h0 : (pauseTracking midRun).lastLocation = some spd1 := midRun_lastLocation
  have hm : 0 ≤ (pauseTracking midRun).runStats.maxSpeed := by
    show (0:ℝ) ≤ midRun.runStats.maxSpeed
    rw [midRun_maxSpeed]
    norm_num
  exact ⟨h0, rfl, hm, c6_ingest_gating (pauseTracking midRun) spd3 spd1 h0 rfl hm⟩

/-- C6 counterexample: delivering a sample to a paused session changes the
state — the route grows by one coordinate and currentSpeedKmh drops from
5 to 0 — refuting the claim that it is a no-op. -/
theorem c6_ingest_gating_counterexample :
    (pauseTracking midRun).isTracking = false ∧
    (pauseTracking midRun).runStats.speed = 5 ∧
    (updateRunStats (pauseTracking midRun) spd3).runStats.speed = 0 ∧
    (updateRunStats (pauseTracking midRun) spd3).coordinates =
      (pauseTracking midRun).coordinates ++ [spd3] ∧
    (updateRunStats (pauseTracking midRun) spd3).coordinates ≠
      (pauseTracking midRun).coordinates := by
  have hl : (pauseTracking midRun).lastLocation = some spd1 := midRun_lastLocation
  have hcs : currentSpeedOf (pauseTracking midRun).isTracking spd1 spd3 = 0 :=
    currentSpeedOf_not_tracking spd1 spd3
  refine ⟨rfl, midRun_speed, ?_, updateRunStats_coordinates _ _, ?_⟩
  · rw [updateRunStats_runStats_some _ _ spd1 hl, afterStats_speed,
      innerStep_fst_speed, hcs]
    norm_num
  · rw [updateRunStats_coordinates]
    intro hEq
    have hlen := congrArg List.length hEq
    simp at hlen

theorem c1Service_duration : c1Service.runStats.duration = 60 := by
  have hst : (resumeTracking (pauseTracking (updateRunStats
      (freshActive 10000) dur0))).startTime = some 10000 := by
    show (updateRunStats (freshActive 10000) dur0).startTime = some 10000
    rw [updateRunStats_startTime, freshActive_eq]
  show (updateRunStats (resumeTracking (pauseTracking (updateRunStats
    (freshActive 10000) dur0))) dur1).runStats.duration = 60
  rw [updateRunStats_duration _ dur1 10000 hst (by norm_num),
    show dur1.timestamp = (70000 : ℝ) from rfl,
    floor_cast_val ((70000 - 10000) / 1000) 60 (by norm_num)]
  decide

theorem c1Timer_refs : c1Timer = { startTimeRef := some 20000, pausedTimeRef := 30000 } := by
  unfold c1Timer resumeRun pauseRun startRun orNow
  norm_num

theorem c1Timer_duration : uiDuration 70000 c1Timer = some 50 := by
  rw [c1Timer_refs]
  simp only [uiDuration]
  rw [if_neg (by norm_num : ¬(20000 : ℝ) = 0),
    floor_cast_val ((70000 - 20000) / 1000) 50 (by norm_num)]

/-- C1: in the 30 s active / 10 s paused / 20 s active scenario, the
LocationService statistics snapshot reports durationSeconds = 60 — its
startTime reference is set once at startTracking and never shifted on
resume, so the paused wall-clock time IS counted — while the activeRun
screen's own timer (whose pause branch records the elapsed-so-far and
whose resume branch shifts startTimeRef by the accumulated pause) reports
the continuous value 50 that the claim describes. -/
theorem c1_pause_resume_duration :
    c1Service.runStats.duration = 60 ∧ uiDuration 70000 c1Timer = some 50 :=
  ⟨c1Service_duration, c1Timer_duration⟩

theorem elevStep_zero_base (t : Bool) (x g : ℝ) :
    elevStep t (some 0) (some x) g = g := by
  simp [elevStep]

theorem c5_elev_seed :
    (updateRunStats (freshActive 1000000) sc0).runStats.elevationGain = 0 := by
  have h : (freshActive 1000000).lastLocation = none := by rw [freshActive_eq]
  rw [updateRunStats_runStats_none _ _ h, afterStats_elevationGain, freshActive_eq]
  rfl

/-- C5: in the two-sample scenario (altitude 0 then altitude 5, one
second apart, on a fresh actively-tracking service), durationSeconds is 1
as claimed, but elevationGainMeters stays 0 instead of increasing by 5:
the source guard "location.altitude && this.lastLocation.altitude" treats
the first sample's altitude of 0 as absent (JavaScript truthiness), so
the +5 step is skipped. -/
theorem c5_two_sample_scenario :
    c5Final.runStats.elevationGain = 0 ∧ c5Final.runStats.duration = 1 := by
  have hl : (updateRunStats (freshActive 1000000) sc0).lastLocation = some sc0 :=
    updateRunStats_lastLocation _ _
  constructor
  · show (updateRunStats (updateRunStats (freshActive 1000000) sc0)
      sc1).runStats.elevationGain = 0
    rw [updateRunStats_runStats_some _ _ sc0 hl, afterStats_elevationGain,
      innerStep_fst_elevationGain, show sc0.altitude = some (0 : ℝ) from rfl,
      show sc1.altitude = some (5 : ℝ) from rfl, elevStep_zero_base, c5_elev_seed]
  · have hst : (updateRunStats (freshActive 1000000) sc0).startTime = some 1000000 := by
      rw [updateRunStats_startTime, freshActive_eq]
    show (updateRunStats (updateRunStats (freshActive 1000000) sc0)
      sc1).runStats.duration = 1
    rw [updateRunStats_duration _ sc1 1000000 hst (by norm_num),
      show sc1.timestamp = (1001000 : ℝ) from rfl,
      floor_cast_val ((1001000 - 1000000) / 1000) 1 (by norm_num)]
    decide

theorem getDistance_equator (lon : ℝ) (h0 : 0 ≤ lon * (Real.pi / 180))
    (h1 : lon * (Real.pi / 180) < Real.pi) :
    getDistance ⟨0, 0⟩ ⟨0, lon⟩ = 6371 * (lon * (Real.pi / 180)) := by
  have hpi := Real.pi_pos
  simp only [getDistance, toRadians, sub_zero, sub_self, zero_mul, zero_div,
    Real.sin_zero, Real.cos_zero, one_mul, mul_zero, zero_add]
  set t := lon * (Real.pi / 180) with ht
  have hs2 : Real.sin (t / 2) * Real.sin (t / 2) = Real.sin (t / 2) ^ 2 :=
    (pow_two _).symm
  rw [hs2]
  have hsin : (0:ℝ) ≤ Real.sin (t / 2) :=
    Real.sin_nonneg_of_nonneg_of_le_pi (by linarith) (by linarith)
  have hcos : (0:ℝ) < Real.cos (t / 2) :=
    Real.cos_pos_of_mem_Ioo (Set.mem_Ioo.mpr ⟨by linarith, by linarith⟩)
  rw [Real.sqrt_sq hsin]
  have hc2 : Real.cos (t / 2) ^ 2 = 1 - Real.sin (t / 2) ^ 2 := Real.cos_sq' (t / 2)
  rw [← hc2, Real.sqrt_sq hcos.le]
  unfold atan2
  rw [if_pos hcos, ← Real.tan_eq_sin_div_cos,
    Real.arctan_tan (by linarith) (by linarith)]
  ring

theorem lonOneMeter_radians : lonOneMeter * (Real.pi / 180) = 1 / 6371000 := by
  unfold lonOneMeter
  field_simp
  ring

theorem getDistance_one_meter : getDistance bd0.toCoord bd1.toCoord = 0.001 := by
  rw [show bd0.toCoord = (⟨0, 0⟩ : Coordinate) from rfl,
    show bd1.toCoord = (⟨0, lonOneMeter⟩ : Coordinate) from rfl,
    getDistance_equator lonOneMeter (by rw [lonOneMeter_radians]; norm_num)
      (by rw [lonOneMeter_radians]; linarith [Real.pi_gt_three]),
    lonOneMeter_radians]
  norm_num

theorem c7Base_isTracking : c7Base.isTracking = true := by
  show (updateRunStats (freshActive 10000) bd0).isTracking = true
  rw [updateRunStats_isTracking, freshActive_eq]

theorem c7Base_lastLocation : c7Base.lastLocation = some bd0 :=
  updateRunStats_lastLocation _ _

/-- C7 (amended): the step distance is added to cumulative distance
exactly when the service is tracking and 0.001 < delta < 0.05 STRICTLY —
the boundary values 1 m and 50 m are excluded; in particular a 200 m step
(and any delta at or outside the bounds) leaves cumulative distance
unchanged. -/
theorem c7_distance_window (s : ServiceState) (l l0 : LocationData)
    (h0 : s.lastLocation = some l0) :
    (updateRunStats s l).runStats.distance =
      if s.isTracking = true ∧ 0.001 < getDistance l0.toCoord l.toCoord ∧
          getDistance l0.toCoord l.toCoord < 0.05 then
        s.runStats.distance + getDistance l0.toCoord l.toCoord
      else s.runStats.distance := by
  rw [updateRunStats_runStats_some s l l0 h0, afterStats_distance,
    innerStep_fst_distance]

/-- C7 witness: the distance-window characterisation instantiated at the
concrete 1-metre boundary pair. -/
theorem c7_distance_window_witness :
    c7Base.lastLocation = some bd0 ∧
    (updateRunStats c7Base bd1).runStats.distance =
      if c7Base.isTracking = true ∧ 0.001 < getDistance bd0.toCoord bd1.toCoord ∧
          getDistance bd0.toCoord bd1.toCoord < 0.05 then
        c7Base.runStats.distance + getDistance bd0.toCoord bd1.toCoord
      else c7Base.runStats.distance :=
  ⟨c7Base_lastLocation, c7_distance_window c7Base bd1 bd0 c7Base_lastLocation⟩

/-- C7 counterexample: two samples exactly 1 m apart (delta = 0.001 km,
inside the claimed inclusive window) do NOT change cumulative distance,
because the source guard is strict (delta > 0.001). -/
theorem c7_distance_window_counterexample :
    getDistance bd0.toCoord bd1.toCoord = 0.001 ∧
    0.001 ≤ getDistance bd0.toCoord bd1.toCoord ∧
    getDistance bd0.toCoord bd1.toCoord ≤ 0.05 ∧
    c7Base.isTracking = true ∧
    c7Base.lastLocation = some bd0 ∧
    (updateRunStats c7Base bd1).runStats.distance = c7Base.runStats.distance := by
  refine ⟨getDistance_one_meter, by rw [getDistance_one_meter],
    by rw [getDistance_one_meter]; norm_num, c7Base_isTracking, c7Base_lastLocation, ?_⟩
  rw [updateRunStats_runStats_some _ _ bd0 c7Base_lastLocation, afterStats_distance,
    innerStep_fst_distance,
    if_neg (fun hc => by
      rw [getDistance_one_meter] at hc
      exact absurd hc.2.1 (lt_irrefl _))]

theorem contains_eq_true_of_mem {l : List String} {a : String} (h : a ∈ l) :
    l.contains a = true := List.elem_eq_true_of_mem h

theorem contains_eq_false_of_not_mem {l : List String} {a : String} (h : a ∉ l) :
    l.contains a = false := by
  cases hb : l.contains a
  · rfl
  · exact absurd (List.mem_of_elem_eq_true hb) h

theorem filter_keep_none (ids : List String) (l : List QueuedAction)
    (h : ∀ a ∈ l, a.id ∈ ids) :
    l.filter (fun item => !(ids.contains item.id)) = [] := by
  apply List.filter_eq_nil_iff.mpr
  intro a ha
  show (!(ids.contains a.id)) ≠ true
  rw [contains_eq_true_of_mem (h a ha)]
  decide

theorem filter_keep_all (ids : List String) (l : List QueuedAction)
    (h : ∀ a ∈ l, a.id ∉ ids) :
    l.filter (fun item => !(ids.contains item.id)) = l := by
  apply List.filter_eq_self.mpr
  intro a ha
  show (!(ids.contains a.id)) = true
  rw [contains_eq_false_of_not_mem (h a ha)]
  rfl

theorem attempted_all_ok (exec : QueuedAction → Bool) (q : List QueuedAction)
    (h : ∀ j ∈ q, exec j = true) : attempted exec q = q := by
  induction q with
  | nil => rfl
  | cons i rest ih =>
      have hi : exec i = true := h i (List.mem_cons_self i rest)
      simp only [attempted, hi, if_true]
      exact congrArg (List.cons i) (ih (fun j hj => h j (List.mem_cons_of_mem i hj)))

theorem processPass_all_ok (exec : QueuedAction → Bool) (q : List QueuedAction)
    (h : ∀ j ∈ q, exec j = true) :
    processPass exec q = (q.map QueuedAction.id, []) := by
  induction q with
  | nil => rfl
  | cons i rest ih =>
      have hi : exec i = true := h i (List.mem_cons_self i rest)
      have ih2 := ih (fun j hj => h j (List.mem_cons_of_mem i hj))
      simp only [processPass, hi, if_true, List.map_cons, ih2]

theorem bump_all_ok (exec : QueuedAction → Bool) (q : List QueuedAction)
    (h : ∀ j ∈ q, exec j = true) : bumpFirstFailing exec q = q := by
  induction q with
  | nil => rfl
  | cons i rest ih =>
      have hi : exec i = true := h i (List.mem_cons_self i rest)
      simp only [bumpFirstFailing, hi, if_true]
      exact congrArg (List.cons i) (ih (fun j hj => h j (List.mem_cons_of_mem i hj)))

theorem processQueue_all_ok (exec : QueuedAction → Bool) (q : List QueuedAction)
    (h : ∀ j ∈ q, exec j = true) : processQueue exec q = [] := by
  unfold processQueue
  rw [processPass_all_ok exec q h, bump_all_ok exec q h]
  exact filter_keep_none _ q
    (fun a ha => List.mem_append_left _ (List.mem_map_of_mem _ ha))

theorem attempted_split (exec : QueuedAction → Bool) (pre : List QueuedAction)
    (i : QueuedAction) (post : List QueuedAction)
    (hpre : ∀ j ∈ pre, exec j = true) (hi : exec i = false) :
    attempted exec (pre ++ i :: post) = pre ++ [i] := by
  induction pre with
  | nil => simp [attempted, hi]
  | cons a rest ih =>
      have ha : exec a = true := hpre a (List.mem_cons_self a rest)
      have ih2 := ih (fun j hj => hpre j (List.mem_cons_of_mem a hj))
      simp only [List.cons_append, attempted, ha, if_true]
      exact congrArg (List.cons a) ih2

theorem processPass_split (exec : QueuedAction → Bool) (pre : List QueuedAction)
    (i : QueuedAction) (post : List QueuedAction)
    (hpre : ∀ j ∈ pre, exec j = true) (hi : exec i = false) :
    processPass exec (pre ++ i :: post) =
      (pre.map QueuedAction.id, if 3 ≤ i.retryCount + 1 then [i.id] else []) := by
  induction pre with
  | nil =>
      by_cases hd : 3 ≤ i.retryCount + 1
      · simp [processPass, hi, hd]
      · simp [processPass, hi, hd]
  | cons a rest ih =>
      have ha : exec a = true := hpre a (List.mem_cons_self a rest)
      have ih2 := ih (fun j hj => hpre j (List.mem_cons_of_mem a hj))
      simp only [List.cons_append, processPass, ha, if_true, List.map_cons,
        List.append_eq, ih2]

theorem bump_split (exec : QueuedAction → Bool) (pre : List QueuedAction)
    (i : QueuedAction) (post : List QueuedAction)
    (hpre : ∀ j ∈ pre, exec j = true) (hi : exec i = false) :
    bumpFirstFailing exec (pre ++ i :: post) =
      pre ++ ({ i with retryCount := i.retryCount + 1 } :: post) := by
  induction pre with
  | nil => simp [bumpFirstFailing, hi]
  | cons a rest ih =>
      have ha : exec a = true := hpre a (List.mem_cons_self a rest)
      have ih2 := ih (fun j hj => hpre j (List.mem_cons_of_mem a hj))
      simp only [List.cons_append, bumpFirstFailing, ha, if_true]
      exact congrArg (List.cons a) ih2

theorem processQueue_split (exec : QueuedAction → Bool) (pre : List QueuedAction)
    (i : QueuedAction) (post : List QueuedAction)
    (hn : ((pre ++ i :: post).map QueuedAction.id).Nodup)
    (hpre : ∀ j ∈ pre, exec j = true) (hi : exec i = false) :
    processQueue exec (pre ++ i :: post) =
      if 3 ≤ i.retryCount + 1 then post
      else { i with retryCount := i.retryCount + 1 } :: post := by
  rw [List.map_append, List.map_cons] at hn
  obtain ⟨hnpre, hnrest, hdisj⟩ := List.nodup_append.mp hn
  have hiNotPre : i.id ∉ pre.map QueuedAction.id :=
    fun hmem => hdisj hmem (List.mem_cons_self _ _)
  have hiNotPost : i.id ∉ post.map QueuedAction.id := (List.nodup_cons.mp hnrest).1
  have hpostNotPre : ∀ a ∈ post, a.id ∉ pre.map QueuedAction.id :=
    fun a ha hmem => hdisj hmem (List.mem_cons_of_mem _ (List.mem_map_of_mem _ ha))
  unfold processQueue
  rw [processPass_split exec pre i post hpre hi, bump_split exec pre i post hpre hi]
  by_cases hd : 3 ≤ i.retryCount + 1
  · simp only [if_pos hd]
    rw [List.filter_append,
      filter_keep_none _ pre
        (fun a ha => List.mem_append_left _ (List.mem_map_of_mem _ ha)),
      List.filter_cons_of_neg (by
        show (!((pre.map QueuedAction.id ++ [i.id]).contains i.id)) ≠ true
        rw [contains_eq_true_of_mem (List.mem_append_right _ (List.mem_singleton_self i.id))]
        decide),
      filter_keep_all _ post (fun a ha hmem => by
        rcases List.mem_append.mp hmem with hmem1 | hmem2
        · exact hpostNotPre a ha hmem1
        · exact hiNotPost (List.mem_singleton.mp hmem2 ▸ List.mem_map_of_mem _ ha)),
      List.nil_append]
  · simp only [if_neg hd]
    rw [List.filter_append,
      filter_keep_none _ pre
        (fun a ha => List.mem_append_left _ (List.mem_map_of_mem _ ha)),
      List.filter_cons_of_pos (by
        show (!((pre.map QueuedAction.id ++ []).contains i.id)) = true
        rw [contains_eq_false_of_not_mem (by rw [List.append_nil]; exact hiNotPre)]
        rfl),
      filter_keep_all _ post (fun a ha hmem => by
        rw [List.append_nil] at hmem
        exact hpostNotPre a ha hmem),
      List.nil_append]

/-- C3: one processQueue pass attempts items strictly in enqueue (FIFO)
order; when every execution succeeds all items are attempted in order and
removed; when an item fails after a (possibly empty) prefix of successes,
exactly that prefix plus the failing item is attempted — nothing after the
first failure is attempted in the pass — the succeeded prefix is removed,
and the failing item either stays (retryCount incremented) or is dropped
when its incremented retryCount reaches 3. -/
theorem c3_fifo_stop_on_first_failure :
    (∀ (exec : QueuedAction → Bool) (q : List QueuedAction),
      (∀ j ∈ q, exec j = true) →
      attempted exec q = q ∧ processQueue exec q = []) ∧
    (∀ (exec : QueuedAction → Bool) (pre : List QueuedAction) (i : QueuedAction)
      (post : List QueuedAction),
      ((pre ++ i :: post).map QueuedAction.id).Nodup →
      (∀ j ∈ pre, exec j = true) → exec i = false →
      attempted exec (pre ++ i :: post) = pre ++ [i] ∧
      processQueue exec (pre ++ i :: post) =
        if 3 ≤ i.retryCount + 1 then post
        else { i with retryCount := i.retryCount + 1 } :: post) :=
  ⟨fun exec q h => ⟨attempted_all_ok exec q h, processQueue_all_ok exec q h⟩,
   fun exec pre i post hn hpre hi =>
    ⟨attempted_split exec pre i post hpre hi,
     processQueue_split exec pre i post hn hpre hi⟩⟩

/-- C3 witness: the queue [qOk, qBad, qNext] under an oracle that succeeds
only on qOk — qOk and qBad are attempted, qNext is not, qOk is removed. -/
theorem c3_fifo_stop_on_first_failure_witness :
    (attempted execOkFirst [qOk] = [qOk] ∧ processQueue execOkFirst [qOk] = []) ∧
    (attempted execOkFirst ([qOk] ++ qBad :: [qNext]) = [qOk] ++ [qBad] ∧
     processQueue execOkFirst ([qOk] ++ qBad :: [qNext]) =
       if 3 ≤ qBad.retryCount + 1 then [qNext]
       else { qBad with retryCount := qBad.retryCount + 1 } :: [qNext]) :=
  ⟨c3_fifo_stop_on_first_failure.1 execOkFirst [qOk] (by decide),
   c3_fifo_stop_on_first_failure.2 execOkFirst [qOk] qBad [qNext]
     (by decide) (by decide) (by decide)⟩

/-- C4 (amended): on a failed execution the item's retryCount is
incremented and the item is dropped once the incremented count reaches 3,
never being attempted a 4th time; with 3 always-failing enqueued items the
queue drains to empty after exactly 3 attempts per item — but those
attempts are spread over successive passes: a failure, INCLUDING one that
drops the item, still ends the current pass, so the next item is only
attempted in a later pass. -/
theorem c4_retry_cap :
    (∀ (exec : QueuedAction → Bool) (i : QueuedAction) (post : List QueuedAction),
      ((i :: post).map QueuedAction.id).Nodup → exec i = false →
      attempted exec (i :: post) = [i] ∧
      processQueue exec (i :: post) =
        if 3 ≤ i.retryCount + 1 then post
        else { i with retryCount := i.retryCount + 1 } :: post) ∧
    (iterProcess alwaysFail 9 (addToQueue (addToQueue (addToQueue [] qaA) qaB) qaC) = [] ∧
     iterProcess alwaysFail 8 (addToQueue (addToQueue (addToQueue [] qaA) qaB) qaC) ≠ [] ∧
     (attemptTrace alwaysFail 12 (addToQueue (addToQueue (addToQueue [] qaA) qaB)
        qaC)).countP (fun it => it.id == "a") = 3 ∧
     (attemptTrace alwaysFail 12 (addToQueue (addToQueue (addToQueue [] qaA) qaB)
        qaC)).countP (fun it => it.id == "b") = 3 ∧
     (attemptTrace alwaysFail 12 (addToQueue (addToQueue (addToQueue [] qaA) qaB)
        qaC)).countP (fun it => it.id == "c") = 3) := by
  constructor
  · intro exec i post hn hi
    exact ⟨attempted_split exec [] i post (by intro j hj; cases hj) hi,
      processQueue_split exec [] i post hn (by intro j hj; cases hj) hi⟩
  · refine ⟨by decide, by decide, by decide, by decide, by decide⟩

/-- C4 witness: head-failure pass semantics at a concrete item whose
retryCount is already 2. -/
theorem c4_retry_cap_witness :
    attempted alwaysFail (qDrop :: [qNext]) = [qDrop] ∧
    processQueue alwaysFail (qDrop :: [qNext]) =
      if 3 ≤ qDrop.retryCount + 1 then [qNext]
      else { qDrop with retryCount := qDrop.retryCount + 1 } :: [qNext] :=
  c4_retry_cap.1 alwaysFail qDrop [qNext] (by decide) (by decide)

/-- C4 counterexample: a failure that drops the item (retryCount 2 → 3)
still stops the pass — the queue becomes [qNext] but qNext is NOT
attempted in that pass, refuting "processing continues to the next item
in the same pass". -/
theorem c4_retry_cap_counterexample :
    processQueue alwaysFail [qDrop, qNext] = [qNext] ∧
    attempted alwaysFail [qDrop, qNext] = [qDrop] ∧
    qNext ∉ attempted alwaysFail [qDrop, qNext] := by decide

/-- C9: distanceKm is symmetric, and the distance from a coordinate to
itself is 0 (haversine great-circle distance, Earth radius 6371 km). -/
theorem c9_distance_symm_and_self :
    (∀ a b : Coordinate, getDistance a b = getDistance b a) ∧
    (∀ a : Coordinate, getDistance a a = 0) :=
  ⟨getDistance_comm, getDistance_self⟩
